import Mathlib

/-!
# usb-serial.c : registration of a set of usb-serial drivers

A shallow embedding of `usb_serial_register_drivers` and
`usb_serial_deregister_drivers` (src/usb-serial.c).

The two functions only call into the USB core, the usb-serial core and the
slab allocator.  Those collaborators are not part of the file; they are
represented by

* `Kernel`, an abstract kernel state: the live `struct usb_driver` objects,
  the `usb_driver` back-reference of every `struct usb_serial_driver`, the
  drivers currently registered with the USB core and with the usb-serial
  core, and the log of every call made;
* `Env`, the results the collaborators hand back during one run (the pointer
  returned by `kzalloc` and the return codes of the fallible calls).

Pointers are addresses (`Ptr`); a nullable pointer is an `Option Ptr`.
-/

namespace UsbSerial

/-- Address of an object in kernel memory (never NULL). -/
abbrev Ptr := Nat

/-- One entry of a device-id table (`struct usb_device_id`). -/
structure usb_device_id where
  idVendor : Nat
  idProduct : Nat
deriving DecidableEq

/-- The device-id table an `id_table` pointer refers to; `none` is NULL. -/
abbrev IdTable := Option (List usb_device_id)

/-- The four usb-serial core callbacks stored in a `struct usb_driver`. -/
inductive Callback where
  | usb_serial_suspend
  | usb_serial_resume
  | usb_serial_probe
  | usb_serial_disconnect
deriving DecidableEq

/-- The fields of `struct usb_driver` that the file touches.  A `none`
pointer field is NULL. -/
structure usb_driver where
  name : Option String
  no_dynamic_id : Nat
  supports_autosuspend : Nat
  suspend : Option Callback
  resume : Option Callback
  probe : Option Callback
  disconnect : Option Callback
  id_table : IdTable
deriving DecidableEq

/-- A zero-filled `struct usb_driver`, as `kzalloc` returns it. -/
def usb_driver.zeroed : usb_driver :=
  { name := none, no_dynamic_id := 0, supports_autosuspend := 0,
    suspend := none, resume := none, probe := none, disconnect := none,
    id_table := none }

/-- Calls recorded in the kernel log.  `usb_register` and
`usb_serial_register` also record the `id_table` that the USB core can see
on the `struct usb_driver` involved at the moment of the call. -/
inductive Call where
  | kzalloc (result : Option Ptr)
  | usb_register (udriver : Ptr) (seen : IdTable)
  | usb_serial_register (sd : Ptr) (seen : IdTable)
  | set_id_table (udriver : Ptr) (id_table : IdTable)
  | driver_attach (udriver : Ptr)
  | usb_serial_deregister (sd : Ptr)
  | usb_deregister (udriver : Ptr)
  | kfree (p : Ptr)
deriving DecidableEq

/-- Calls on the bus subsystem, as opposed to calls on the memory
allocator. -/
def Call.is_bus_call : Call → Bool
  | .kzalloc _ => false
  | .kfree _ => false
  | _ => true

/-- Abstract kernel state. -/
@[ext]
structure Kernel where
  /-- live `struct usb_driver` objects, by address -/
  heap : Ptr → Option usb_driver
  /-- the `usb_driver` field of the `struct usb_serial_driver` at an address -/
  sd_usb_driver : Ptr → Option Ptr
  /-- the `struct usb_driver`s registered with the USB core, latest first -/
  usb_drivers : List Ptr
  /-- the `struct usb_serial_driver`s registered with the usb-serial core,
  latest first -/
  serial_drivers : List Ptr
  /-- every call made so far, oldest first -/
  log : List Call

/-- A kernel in which nothing is allocated, registered or logged. -/
def Kernel.empty : Kernel :=
  { heap := fun _ => none, sd_usb_driver := fun _ => none,
    usb_drivers := [], serial_drivers := [], log := [] }

/-- The calls on the bus subsystem recorded in the log. -/
def Kernel.bus_log (k : Kernel) : List Call :=
  k.log.filter Call.is_bus_call

/-- The `id_table` of the `struct usb_driver` at `udriver`, if it is live. -/
def Kernel.id_table_of (k : Kernel) (udriver : Ptr) : IdTable :=
  (k.heap udriver).bind usb_driver.id_table

/-- Results handed back by the collaborators during one run.  The loop of
`usb_serial_register_drivers` calls `usb_serial_register` once for each
position of the array, in order, so whatever the callee does in one run is
given by its return code at each position. -/
structure Env where
  /-- pointer returned by `kzalloc`; `none` is NULL -/
  kzalloc : Option Ptr
  /-- return code of `usb_register` -/
  usb_register : Int
  /-- return code of `usb_serial_register` for the entry at a given
  position of the `serial_drivers` array -/
  usb_serial_register : Nat → Int
  /-- return code of `driver_attach` -/
  driver_attach : Int

/-- Modelled from the spec: the code of `AllocationError`.  `ENOMEM` comes
from the kernel headers, which are not part of the file; its value there is
12. -/
def ENOMEM : Int := 12

/-! ## Collaborator operations on the abstract kernel -/

/-- Modelled from the spec: the allocator is not part of the file.
`kzalloc(sizeof(struct usb_driver), GFP_KERNEL)` returning `result`: a
non-NULL result is a fresh zero-filled object. -/
def Kernel.kzalloc (k : Kernel) (result : Option Ptr) : Kernel :=
  match result with
  | none => { k with log := k.log ++ [Call.kzalloc none] }
  | some p =>
    { k with
      heap := fun q => if q = p then some usb_driver.zeroed else k.heap q
      log := k.log ++ [Call.kzalloc (some p)] }

/-- Modelled from the spec: the allocator is not part of the file.
`kfree(p)` ends the life of the object at `p`. -/
def Kernel.kfree (k : Kernel) (p : Ptr) : Kernel :=
  { k with
    heap := fun q => if q = p then none else k.heap q
    log := k.log ++ [Call.kfree p] }

/-- A store through the pointer `udriver` into a live `struct usb_driver`. -/
def Kernel.store (k : Kernel) (udriver : Ptr) (f : usb_driver → usb_driver) : Kernel :=
  { k with heap := fun q => if q = udriver then (k.heap udriver).map f else k.heap q }

/-- Modelled from the spec: `bus_register(handle) -> Result<(), Error>`, which
is not part of the file.  `usb_register(udriver)` returning `rc`; the driver
is registered when `rc` is 0. -/
def Kernel.usb_register (k : Kernel) (udriver : Ptr) (rc : Int) : Kernel :=
  { k with
    usb_drivers := if rc = 0 then udriver :: k.usb_drivers else k.usb_drivers
    log := k.log ++ [Call.usb_register udriver (k.id_table_of udriver)] }

/-- Modelled from the spec: `bus_deregister(handle)`, which is not part of
the file.  `usb_deregister(udriver)` removes one registration of
`udriver`. -/
def Kernel.usb_deregister (k : Kernel) (udriver : Ptr) : Kernel :=
  { k with
    usb_drivers := k.usb_drivers.erase udriver
    log := k.log ++ [Call.usb_deregister udriver] }

/-- The assignment `sd->usb_driver = udriver`. -/
def Kernel.set_sd_usb_driver (k : Kernel) (sd udriver : Ptr) : Kernel :=
  { k with sd_usb_driver := fun q => if q = sd then some udriver else k.sd_usb_driver q }

/-- Modelled from the spec: `subdriver_register(descriptor) -> Result<(),
Error>`, which is not part of the file.  `usb_serial_register(sd)` returning
`rc`; the driver is registered when `rc` is 0.  The `id_table` recorded is
the one of `sd->usb_driver`. -/
def Kernel.usb_serial_register (k : Kernel) (sd : Ptr) (rc : Int) : Kernel :=
  { k with
    serial_drivers := if rc = 0 then sd :: k.serial_drivers else k.serial_drivers
    log := k.log ++
      [Call.usb_serial_register sd ((k.sd_usb_driver sd).bind k.id_table_of)] }

/-- Modelled from the spec: `subdriver_deregister(descriptor)`, which is not
part of the file.  `usb_serial_deregister(sd)` removes one registration of
`sd`. -/
def Kernel.usb_serial_deregister (k : Kernel) (sd : Ptr) : Kernel :=
  { k with
    serial_drivers := k.serial_drivers.erase sd
    log := k.log ++ [Call.usb_serial_deregister sd] }

/-- The assignment `udriver->id_table = id_table`. -/
def Kernel.set_id_table (k : Kernel) (udriver : Ptr) (id_table : IdTable) : Kernel :=
  { k.store udriver (fun d => { d with id_table := id_table }) with
    log := k.log ++ [Call.set_id_table udriver id_table] }

/-- Modelled from the spec: `trigger_match(handle)`, which is not part of the
file.  `driver_attach(&udriver->drvwrap.driver)`; its effect on devices is
outside the model. -/
def Kernel.driver_attach (k : Kernel) (udriver : Ptr) : Kernel :=
  { k with log := k.log ++ [Call.driver_attach udriver] }

/-! ## usb_serial_register_drivers -/

/-- The assignments to `udriver->name`, `no_dynamic_id`,
`supports_autosuspend`, `suspend`, `resume`, `probe` and `disconnect` that
follow the allocation. -/
def Kernel.init_udriver (k : Kernel) (udriver : Ptr) (name : String) : Kernel :=
  k.store udriver (fun d =>
    { d with
      name := some name
      no_dynamic_id := 1
      supports_autosuspend := 1
      suspend := some Callback.usb_serial_suspend
      resume := some Callback.usb_serial_resume
      probe := some Callback.usb_serial_probe
      disconnect := some Callback.usb_serial_disconnect })

/-- The loop `for (sd = serial_drivers; *sd; ++sd)` of
`usb_serial_register_drivers`, entered with `sd` at position `sd` of the
array and `rest` the entries from there up to the NULL terminator.

Returns `some (sd, rc)` when the loop is left by `goto failed` with these
values of `sd` and `rc`, and `none` when it runs to the terminator. -/
def register_loop (env : Env) (udriver : Ptr) :
    List Ptr → Nat → Kernel → Option (Nat × Int) × Kernel
  | [], _, k => (none, k)
  | p :: rest, sd, k =>
    let k := k.set_sd_usb_driver p udriver
    let rc := env.usb_serial_register sd
    let k := k.usb_serial_register p rc
    if rc ≠ 0 then (some (sd, rc), k)
    else register_loop env udriver rest (sd + 1) k

/-- The loop `while (sd-- > serial_drivers) usb_serial_deregister(*sd);`
entered with `sd` at position `sd` of the array. -/
def rollback (serial_drivers : List Ptr) : Nat → Kernel → Kernel
  | 0, k => k
  | sd + 1, k => rollback serial_drivers sd (k.usb_serial_deregister (serial_drivers.getD sd 0))

/-- The function `usb_serial_register_drivers(serial_drivers, name, id_table)`.
`serial_drivers` holds the entries of the array before its NULL terminator.
Returns the return code and the kernel state on return. -/
def usb_serial_register_drivers (env : Env) (serial_drivers : List Ptr)
    (name : String) (id_table : IdTable) (k : Kernel) : Int × Kernel :=
  let k := k.kzalloc env.kzalloc
  match env.kzalloc with
  | none => (-ENOMEM, k)
  | some udriver =>
    let k := k.init_udriver udriver name
    let rc := env.usb_register
    let k := k.usb_register udriver rc
    if rc ≠ 0 then (rc, k)
    else
      match register_loop env udriver serial_drivers 0 k with
      | (some (sd, rc), k) =>
        -- failed:
        let k := rollback serial_drivers sd k
        let k := k.usb_deregister udriver
        (rc, k)
      | (none, k) =>
        let k := k.set_id_table udriver id_table
        -- rc = driver_attach(...); the value is not looked at
        let _rc := env.driver_attach
        let k := k.driver_attach udriver
        (0, k)

/-! ## usb_serial_deregister_drivers -/

/-- The loop `for (; *serial_drivers; ++serial_drivers)` of
`usb_serial_deregister_drivers`. -/
def deregister_loop : List Ptr → Kernel → Kernel
  | [], k => k
  | p :: rest, k => deregister_loop rest (k.usb_serial_deregister p)

/-- The function `usb_serial_deregister_drivers(serial_drivers)`.  The result is `none`
when the function dereferences a NULL pointer: `*serial_drivers` for an
array that holds only the terminator, or the `udriver` read from the first
entry when `usb_deregister` is reached. -/
def usb_serial_deregister_drivers (serial_drivers : List Ptr) (k : Kernel) :
    Option Kernel :=
  match serial_drivers with
  | [] => none
  | first :: _ =>
    let udriver := k.sd_usb_driver first
    let k := deregister_loop serial_drivers k
    match udriver with
    | none => none
    | some udriver =>
      let k := k.usb_deregister udriver
      let k := k.kfree udriver
      some k

/-! ## Concrete runs -/

/-- A run in which every call succeeds with handle address 100. -/
def env_ok : Env :=
  { kzalloc := some 100, usb_register := 0, usb_serial_register := fun _ => 0,
    driver_attach := 0 }

/-- A run in which `usb_serial_register` fails with `-EINVAL` for the entry
at position 1 and every other call succeeds. -/
def env_sub_fail : Env :=
  { kzalloc := some 100, usb_register := 0,
    usb_serial_register := fun j => if j = 1 then -22 else 0, driver_attach := 0 }

/-- A run in which `usb_register` fails with `-EBUSY`. -/
def env_bus_fail : Env :=
  { kzalloc := some 100, usb_register := -16, usb_serial_register := fun _ => 0,
    driver_attach := 0 }

/-- A run in which only `driver_attach` fails, with `-ENODEV`. -/
def env_attach_fail : Env :=
  { kzalloc := some 100, usb_register := 0, usb_serial_register := fun _ => 0,
    driver_attach := -19 }

/-! ## States reached along the paths of bring-up and teardown -/

/-- The kernel reached from `k` when the registration loop has stored
`udriver` into the descriptors `touched` and called `usb_serial_register` on
each of them, the calls for `ok` having succeeded. -/
def loop_result (udriver : Ptr) (ok touched : List Ptr) (k : Kernel) : Kernel :=
  { heap := k.heap
    sd_usb_driver := fun q => if q ∈ touched then some udriver else k.sd_usb_driver q
    usb_drivers := k.usb_drivers
    serial_drivers := ok.reverse ++ k.serial_drivers
    log := k.log ++ touched.map (fun p => Call.usb_serial_register p (k.id_table_of udriver)) }

/-- The kernel reached from `k` by calling `usb_serial_deregister` on the
entries of `l`, first to last. -/
def deregister_result (l : List Ptr) (k : Kernel) : Kernel :=
  { k with
    serial_drivers := k.serial_drivers.diff l
    log := k.log ++ l.map Call.usb_serial_deregister }

/-- The `struct usb_driver` as it stands after the assignments that follow
the allocation. -/
def initialised (name : String) : usb_driver :=
  { name := some name, no_dynamic_id := 1, supports_autosuspend := 1,
    suspend := some Callback.usb_serial_suspend,
    resume := some Callback.usb_serial_resume,
    probe := some Callback.usb_serial_probe,
    disconnect := some Callback.usb_serial_disconnect,
    id_table := none }

/-- The kernel reached from `k` when `kzalloc` has returned `u`, the fields
of `*u` have been filled in and `usb_register(u)` has returned `rc`. -/
def bus_registered (u : Ptr) (name : String) (rc : Int) (k : Kernel) : Kernel :=
  { heap := fun q => if q = u then some (initialised name) else k.heap q
    sd_usb_driver := k.sd_usb_driver
    usb_drivers := if rc = 0 then u :: k.usb_drivers else k.usb_drivers
    serial_drivers := k.serial_drivers
    log := k.log ++ [Call.kzalloc (some u), Call.usb_register u none] }

/-- The calls that one run of `usb_serial_register_drivers` adds to the
log. -/
def register_calls (env : Env) (sds : List Ptr) (name : String) (id_table : IdTable)
    (k : Kernel) : List Call :=
  (usb_serial_register_drivers env sds name id_table k).2.log.drop k.log.length

/-! ## The registration loop -/

theorem loop_result_nil (u : Ptr) (k : Kernel) : loop_result u [] [] k = k := by
  ext <;> simp [loop_result]

theorem loop_result_step_ok (u p : Ptr) (ok touched : List Ptr) (k : Kernel) :
    loop_result u ok touched ((k.set_sd_usb_driver p u).usb_serial_register p 0)
      = loop_result u (p :: ok) (p :: touched) k := by
  ext q
  · simp [loop_result, Kernel.usb_serial_register, Kernel.set_sd_usb_driver]
  · by_cases h1 : q = p <;> by_cases h2 : q ∈ touched <;>
      simp [loop_result, Kernel.usb_serial_register, Kernel.set_sd_usb_driver, h1, h2]
  · simp [loop_result, Kernel.usb_serial_register, Kernel.set_sd_usb_driver]
  · simp [loop_result, Kernel.usb_serial_register, Kernel.set_sd_usb_driver]
  · simp [loop_result, Kernel.usb_serial_register, Kernel.set_sd_usb_driver,
      Kernel.id_table_of]

theorem loop_result_step_fail (u p : Ptr) (rc : Int) (hrc : rc ≠ 0) (k : Kernel) :
    (k.set_sd_usb_driver p u).usb_serial_register p rc = loop_result u [] [p] k := by
  ext q
  · simp [loop_result, Kernel.usb_serial_register, Kernel.set_sd_usb_driver]
  · by_cases h1 : q = p <;>
      simp [loop_result, Kernel.usb_serial_register, Kernel.set_sd_usb_driver, h1]
  · simp [loop_result, Kernel.usb_serial_register, Kernel.set_sd_usb_driver]
  · simp [loop_result, Kernel.usb_serial_register, Kernel.set_sd_usb_driver, hrc]
  · simp [loop_result, Kernel.usb_serial_register, Kernel.set_sd_usb_driver,
      Kernel.id_table_of]

/-- When every call of `usb_serial_register` succeeds the loop runs to the
terminator. -/
theorem register_loop_ok (env : Env) (u : Ptr) (l : List Ptr) :
    ∀ (sd : Nat) (k : Kernel),
      (∀ j, j < l.length → env.usb_serial_register (sd + j) = 0) →
      register_loop env u l sd k = (none, loop_result u l l k) := by
  induction l with
  | nil => intro sd k _; simp [register_loop, loop_result_nil]
  | cons p rest ih =>
    intro sd k h
    have h0 : env.usb_serial_register sd = 0 := by simpa using h 0 (by simp)
    have hrest : ∀ j, j < rest.length → env.usb_serial_register (sd + 1 + j) = 0 := by
      intro j hj
      have := h (j + 1) (by simpa using hj)
      rwa [show sd + (j + 1) = sd + 1 + j by omega] at this
    simp only [register_loop, h0, ne_eq, not_true_eq_false, if_false]
    rw [ih (sd + 1) _ hrest, loop_result_step_ok]

/-- When the call of `usb_serial_register` for position `sd + i` is the first
to fail, the loop is left by `goto failed` with `sd` at that position. -/
theorem register_loop_fail (env : Env) (u : Ptr) (l : List Ptr) :
    ∀ (i sd : Nat) (k : Kernel), i < l.length →
      (∀ j, j < i → env.usb_serial_register (sd + j) = 0) →
      env.usb_serial_register (sd + i) ≠ 0 →
      register_loop env u l sd k
        = (some (sd + i, env.usb_serial_register (sd + i)),
           loop_result u (l.take i) (l.take (i + 1)) k) := by
  induction l with
  | nil => intro i sd k hi; simp at hi
  | cons p rest ih =>
    intro i sd k hi hok hfail
    cases i with
    | zero =>
      have hfail0 : env.usb_serial_register sd ≠ 0 := by simpa using hfail
      simp only [register_loop, hfail0, ne_eq, not_false_eq_true, if_true]
      simp [loop_result_step_fail u p _ hfail0]
    | succ i =>
      have h0 : env.usb_serial_register sd = 0 := by simpa using hok 0 (by omega)
      have hi2 : i < rest.length := by simpa using hi
      have hok2 : ∀ j, j < i → env.usb_serial_register (sd + 1 + j) = 0 := by
        intro j hj
        have := hok (j + 1) (by omega)
        rwa [show sd + (j + 1) = sd + 1 + j by omega] at this
      have hfail2 : env.usb_serial_register (sd + 1 + i) ≠ 0 := by
        rwa [show sd + (i + 1) = sd + 1 + i by omega] at hfail
      simp only [register_loop, h0, ne_eq, not_true_eq_false, if_false]
      rw [ih i (sd + 1) _ hi2 hok2 hfail2, loop_result_step_ok]
      simp [show sd + 1 + i = sd + (i + 1) by omega]

/-! ## Deregistration loops -/

theorem deregister_loop_eq (l : List Ptr) :
    ∀ k : Kernel, deregister_loop l k = deregister_result l k := by
  induction l with
  | nil => intro k; simp [deregister_loop, deregister_result]
  | cons p rest ih =>
    intro k
    rw [deregister_loop, ih]
    simp [deregister_result, Kernel.usb_serial_deregister, List.diff_cons]

theorem rollback_eq (l : List Ptr) :
    ∀ (sd : Nat) (k : Kernel), sd ≤ l.length →
      rollback l sd k = deregister_result (l.take sd).reverse k := by
  intro sd
  induction sd with
  | zero => intro k _; simp [rollback, deregister_result]
  | succ n ih =>
    intro k h
    have hn : n < l.length := by omega
    rw [rollback, ih _ (by omega)]
    have ht : l.take (n + 1) = l.take n ++ [l.getD n 0] := by
      rw [List.take_succ, List.getD_eq_getElem?_getD, List.getElem?_eq_getElem hn]
      simp
    simp [deregister_result, Kernel.usb_serial_deregister, ht, List.diff_cons]

/-- Removing, one by one, the entries of `ys` from a list that starts with a
rearrangement of `ys` leaves the rest of the list. -/
theorem diff_append_of_perm (ys : List Ptr) :
    ∀ (xs rest : List Ptr), xs.Perm ys → (xs ++ rest).diff ys = rest := by
  induction ys with
  | nil => intro xs rest h; simp [List.perm_nil.mp h]
  | cons y ys ih =>
    intro xs rest h
    have hy : y ∈ xs := h.symm.subset (List.mem_cons_self y ys)
    rw [List.diff_cons, List.erase_append_left rest hy]
    apply ih
    have := h.erase y
    simpa using this

/-! ## The paths through usb_serial_register_drivers -/

theorem bus_registered_eq (u : Ptr) (name : String) (rc : Int) (k : Kernel) :
    ((k.kzalloc (some u)).init_udriver u name).usb_register u rc
      = bus_registered u name rc k := by
  ext q
  · by_cases h : q = u <;>
      simp [bus_registered, Kernel.usb_register, Kernel.init_udriver, Kernel.store,
        Kernel.kzalloc, initialised, usb_driver.zeroed, h]
  · simp [bus_registered, Kernel.usb_register, Kernel.init_udriver, Kernel.store,
      Kernel.kzalloc]
  · simp [bus_registered, Kernel.usb_register, Kernel.init_udriver, Kernel.store,
      Kernel.kzalloc]
  · simp [bus_registered, Kernel.usb_register, Kernel.init_udriver, Kernel.store,
      Kernel.kzalloc]
  · simp [bus_registered, Kernel.usb_register, Kernel.init_udriver, Kernel.store,
      Kernel.kzalloc, Kernel.id_table_of, usb_driver.zeroed]

theorem bus_registered_id_table (u : Ptr) (name : String) (rc : Int) (k : Kernel) :
    (bus_registered u name rc k).id_table_of u = none := by
  simp [bus_registered, Kernel.id_table_of, initialised]

/-- Allocation fails: `-ENOMEM`. -/
theorem register_alloc_fail (env : Env) (sds : List Ptr) (name : String)
    (id_table : IdTable) (k : Kernel) (halloc : env.kzalloc = none) :
    usb_serial_register_drivers env sds name id_table k
      = (-ENOMEM, { k with log := k.log ++ [Call.kzalloc none] }) := by
  simp [usb_serial_register_drivers, halloc, Kernel.kzalloc]

/-- Registration of the `struct usb_driver` fails. -/
theorem register_bus_fail (env : Env) (sds : List Ptr) (name : String)
    (id_table : IdTable) (k : Kernel) (u : Ptr) (halloc : env.kzalloc = some u)
    (hbus : env.usb_register ≠ 0) :
    usb_serial_register_drivers env sds name id_table k
      = (env.usb_register, bus_registered u name env.usb_register k) := by
  simp [usb_serial_register_drivers, halloc, hbus, bus_registered_eq]

/-- Every registration succeeds. -/
theorem register_all_ok (env : Env) (sds : List Ptr) (name : String)
    (id_table : IdTable) (k : Kernel) (u : Ptr) (halloc : env.kzalloc = some u)
    (hbus : env.usb_register = 0)
    (hall : ∀ j, j < sds.length → env.usb_serial_register j = 0) :
    usb_serial_register_drivers env sds name id_table k
      = (0, ((loop_result u sds sds (bus_registered u name 0 k)).set_id_table u
              id_table).driver_attach u) := by
  have hloop := register_loop_ok env u sds 0 (bus_registered u name 0 k)
    (by simpa using hall)
  simp [usb_serial_register_drivers, halloc, hbus, bus_registered_eq, hloop]

/-- Registration of the serial driver at position `i` is the first to
fail. -/
theorem register_sub_fail (env : Env) (sds : List Ptr) (name : String)
    (id_table : IdTable) (k : Kernel) (u : Ptr) (i : Nat)
    (halloc : env.kzalloc = some u) (hbus : env.usb_register = 0)
    (hi : i < sds.length)
    (hok : ∀ j, j < i → env.usb_serial_register j = 0)
    (hfail : env.usb_serial_register i ≠ 0) :
    usb_serial_register_drivers env sds name id_table k
      = (env.usb_serial_register i,
         (deregister_result (sds.take i).reverse
            (loop_result u (sds.take i) (sds.take (i + 1))
              (bus_registered u name 0 k))).usb_deregister u) := by
  have hloop := register_loop_fail env u sds i 0 (bus_registered u name 0 k) hi
    (by simpa using hok) (by simpa using hfail)
  simp only [Nat.zero_add] at hloop
  simp [usb_serial_register_drivers, halloc, hbus, bus_registered_eq, hloop,
    rollback_eq sds i _ (Nat.le_of_lt hi)]

/-- The log after a bring-up in which every registration succeeds. -/
theorem register_all_ok_log (u : Ptr) (sds : List Ptr) (name : String)
    (id_table : IdTable) (k : Kernel) :
    (((loop_result u sds sds (bus_registered u name 0 k)).set_id_table u
        id_table).driver_attach u).log
      = k.log ++ ([Call.kzalloc (some u), Call.usb_register u none]
          ++ sds.map (fun p => Call.usb_serial_register p none)
          ++ [Call.set_id_table u id_table, Call.driver_attach u]) := by
  simp [Kernel.driver_attach, Kernel.set_id_table, Kernel.store, loop_result,
    bus_registered_id_table]
  simp [bus_registered]

/-- The log after a bring-up in which the serial driver at position `i` is
the first to fail. -/
theorem register_sub_fail_log (u : Ptr) (sds : List Ptr) (name : String) (i : Nat)
    (k : Kernel) :
    ((deregister_result (sds.take i).reverse
      (loop_result u (sds.take i) (sds.take (i + 1))
        (bus_registered u name 0 k))).usb_deregister u).log
      = k.log ++ ([Call.kzalloc (some u), Call.usb_register u none]
          ++ (sds.take (i + 1)).map (fun p => Call.usb_serial_register p none)
          ++ (sds.take i).reverse.map Call.usb_serial_deregister
          ++ [Call.usb_deregister u]) := by
  simp [Kernel.usb_deregister, deregister_result, loop_result,
    bus_registered_id_table]
  simp [bus_registered]

/-- Either every call of `usb_serial_register` for the positions below `n`
succeeds, or there is a first position at which it fails. -/
theorem first_failure (f : Nat → Int) (n : Nat) :
    (∀ j, j < n → f j = 0) ∨
    ∃ i, i < n ∧ (∀ j, j < i → f j = 0) ∧ f i ≠ 0 := by
  induction n with
  | zero => left; intro j hj; omega
  | succ n ih =>
    rcases ih with h | ⟨i, hi, hok, hfail⟩
    · by_cases hn : f n = 0
      · left
        intro j hj
        rcases Nat.lt_succ_iff_lt_or_eq.mp hj with h1 | h1
        · exact h j h1
        · rw [h1]; exact hn
      · right
        exact ⟨n, Nat.lt_succ_self n, h, hn⟩
    · right
      exact ⟨i, Nat.lt_succ_of_lt hi, hok, hfail⟩

/-- The four paths through `usb_serial_register_drivers`, with the return
code and the calls made on each. -/
theorem register_paths (env : Env) (sds : List Ptr) (name : String)
    (id_table : IdTable) (k : Kernel) :
    (env.kzalloc = none ∧
      (usb_serial_register_drivers env sds name id_table k).1 = -ENOMEM ∧
      register_calls env sds name id_table k = [Call.kzalloc none]) ∨
    (∃ u, env.kzalloc = some u ∧ env.usb_register ≠ 0 ∧
      (usb_serial_register_drivers env sds name id_table k).1 = env.usb_register ∧
      register_calls env sds name id_table k
        = [Call.kzalloc (some u), Call.usb_register u none]) ∨
    (∃ u, env.kzalloc = some u ∧ env.usb_register = 0 ∧
      (∀ j, j < sds.length → env.usb_serial_register j = 0) ∧
      (usb_serial_register_drivers env sds name id_table k).1 = 0 ∧
      register_calls env sds name id_table k
        = [Call.kzalloc (some u), Call.usb_register u none]
          ++ sds.map (fun p => Call.usb_serial_register p none)
          ++ [Call.set_id_table u id_table, Call.driver_attach u]) ∨
    (∃ u i, env.kzalloc = some u ∧ env.usb_register = 0 ∧ i < sds.length ∧
      (∀ j, j < i → env.usb_serial_register j = 0) ∧
      env.usb_serial_register i ≠ 0 ∧
      (usb_serial_register_drivers env sds name id_table k).1
        = env.usb_serial_register i ∧
      register_calls env sds name id_table k
        = [Call.kzalloc (some u), Call.usb_register u none]
          ++ (sds.take (i + 1)).map (fun p => Call.usb_serial_register p none)
          ++ (sds.take i).reverse.map Call.usb_serial_deregister
          ++ [Call.usb_deregister u]) := by
  cases halloc : env.kzalloc with
  | none =>
    left
    refine ⟨rfl, ?_, ?_⟩
    · rw [register_alloc_fail env sds name id_table k halloc]
    · rw [register_calls, register_alloc_fail env sds name id_table k halloc]
      exact List.drop_left _ _
  | some u =>
    right
    by_cases hbus : env.usb_register = 0
    · right
      rcases first_failure env.usb_serial_register sds.length with hall | ⟨i, hi, hok, hfail⟩
      · left
        refine ⟨u, rfl, hbus, hall, ?_, ?_⟩
        · rw [register_all_ok env sds name id_table k u halloc hbus hall]
        · rw [register_calls, register_all_ok env sds name id_table k u halloc hbus hall,
            register_all_ok_log]
          exact List.drop_left _ _
      · right
        refine ⟨u, i, rfl, hbus, hi, hok, hfail, ?_, ?_⟩
        · rw [register_sub_fail env sds name id_table k u i halloc hbus hi hok hfail]
        · rw [register_calls,
            register_sub_fail env sds name id_table k u i halloc hbus hi hok hfail,
            register_sub_fail_log]
          exact List.drop_left _ _
    · left
      refine ⟨u, rfl, hbus, ?_, ?_⟩
      · rw [register_bus_fail env sds name id_table k u halloc hbus]
      · rw [register_calls, register_bus_fail env sds name id_table k u halloc hbus]
        simp [bus_registered]

/-! ## Properties of bring-up -/

/-- C1 (atomicity of bring-up): when allocation and registration of the
`struct usb_driver` succeed, the serial drivers at positions below `i`
register and the one at position `i < n` fails, the call returns a non-zero
code and leaves exactly the registrations it found: every serial driver it
registered has been deregistered again and so has the `struct usb_driver`.
Started from a kernel with nothing registered, nothing is registered on
return. -/
theorem C1_atomic_bring_up (env : Env) (sds : List Ptr) (name : String)
    (id_table : IdTable) (k : Kernel) (u : Ptr) (i : Nat)
    (halloc : env.kzalloc = some u) (hbus : env.usb_register = 0)
    (hi : i < sds.length)
    (hok : ∀ j, j < i → env.usb_serial_register j = 0)
    (hfail : env.usb_serial_register i ≠ 0) :
    (usb_serial_register_drivers env sds name id_table k).1 ≠ 0 ∧
    (usb_serial_register_drivers env sds name id_table k).2.serial_drivers
      = k.serial_drivers ∧
    (usb_serial_register_drivers env sds name id_table k).2.usb_drivers
      = k.usb_drivers ∧
    (k.serial_drivers = [] → k.usb_drivers = [] →
      (usb_serial_register_drivers env sds name id_table k).2.serial_drivers = [] ∧
      (usb_serial_register_drivers env sds name id_table k).2.usb_drivers = []) := by
  rw [register_sub_fail env sds name id_table k u i halloc hbus hi hok hfail]
  have h1 : ((sds.take i).reverse ++ k.serial_drivers).diff (sds.take i).reverse
      = k.serial_drivers :=
    diff_append_of_perm _ _ _ (List.Perm.refl _)
  have h2 : (deregister_result (sds.take i).reverse
      (loop_result u (sds.take i) (sds.take (i + 1))
        (bus_registered u name 0 k))).serial_drivers = k.serial_drivers := by
    simpa [deregister_result, loop_result, bus_registered] using h1
  refine ⟨hfail, ?_, ?_, ?_⟩
  · simpa [Kernel.usb_deregister] using h2
  · simp [Kernel.usb_deregister, deregister_result, loop_result, bus_registered]
  · intro hs hu
    refine ⟨?_, ?_⟩
    · simpa [Kernel.usb_deregister, hs] using h2
    · simp [Kernel.usb_deregister, deregister_result, loop_result, bus_registered, hu]

/-- Instance of C1: three serial drivers, the one at position 1 fails. -/
theorem C1_atomic_bring_up_witness :
    (env_sub_fail.kzalloc = some 100 ∧ env_sub_fail.usb_register = 0 ∧
      1 < [1, 2, 3].length ∧ (∀ j, j < 1 → env_sub_fail.usb_serial_register j = 0) ∧
      env_sub_fail.usb_serial_register 1 ≠ 0) ∧
    ((usb_serial_register_drivers env_sub_fail [1, 2, 3] "ftdi" none Kernel.empty).1 ≠ 0 ∧
     (usb_serial_register_drivers env_sub_fail [1, 2, 3] "ftdi" none
        Kernel.empty).2.serial_drivers = Kernel.empty.serial_drivers ∧
     (usb_serial_register_drivers env_sub_fail [1, 2, 3] "ftdi" none
        Kernel.empty).2.usb_drivers = Kernel.empty.usb_drivers ∧
     (Kernel.empty.serial_drivers = [] → Kernel.empty.usb_drivers = [] →
       (usb_serial_register_drivers env_sub_fail [1, 2, 3] "ftdi" none
          Kernel.empty).2.serial_drivers = [] ∧
       (usb_serial_register_drivers env_sub_fail [1, 2, 3] "ftdi" none
          Kernel.empty).2.usb_drivers = [])) :=
  ⟨⟨rfl, rfl, by decide, by decide, by decide⟩,
   C1_atomic_bring_up env_sub_fail [1, 2, 3] "ftdi" none Kernel.empty 100 1 rfl rfl
     (by decide) (by decide) (by decide)⟩

theorem filter_usb_serial_register (l : List Ptr) (t : IdTable) :
    (l.map (fun p => Call.usb_serial_register p t)).filter Call.is_bus_call
      = l.map (fun p => Call.usb_serial_register p t) := by
  induction l with
  | nil => rfl
  | cons p rest ih => simp [Call.is_bus_call]

theorem filter_usb_serial_deregister (l : List Ptr) :
    (l.map Call.usb_serial_deregister).filter Call.is_bus_call
      = l.map Call.usb_serial_deregister := by
  induction l with
  | nil => rfl
  | cons p rest ih => simp [Call.is_bus_call]

/-- C2 (rollback order): when the serial driver at position `i < n` is the
first to fail, the call returns that driver's error code and the calls it
makes are, in order: `kzalloc`, `usb_register`, `usb_serial_register` on the
entries at positions `0 .. i` (each seeing no `id_table`),
`usb_serial_deregister` on the entries at positions `i-1, i-2, .., 0`, and
last `usb_deregister`.  The entry at position `i` is not deregistered and
no entry after it is touched.  The calls on the bus subsystem are the same
sequence without the `kzalloc`. -/
theorem C2_rollback_order (env : Env) (sds : List Ptr) (name : String)
    (id_table : IdTable) (k : Kernel) (u : Ptr) (i : Nat)
    (halloc : env.kzalloc = some u) (hbus : env.usb_register = 0)
    (hi : i < sds.length)
    (hok : ∀ j, j < i → env.usb_serial_register j = 0)
    (hfail : env.usb_serial_register i ≠ 0) :
    (usb_serial_register_drivers env sds name id_table k).1
      = env.usb_serial_register i ∧
    (usb_serial_register_drivers env sds name id_table k).2.log
      = k.log ++ ([Call.kzalloc (some u), Call.usb_register u none]
          ++ (sds.take (i + 1)).map (fun p => Call.usb_serial_register p none)
          ++ (sds.take i).reverse.map Call.usb_serial_deregister
          ++ [Call.usb_deregister u]) ∧
    (usb_serial_register_drivers env sds name id_table k).2.bus_log
      = k.bus_log ++ ([Call.usb_register u none]
          ++ (sds.take (i + 1)).map (fun p => Call.usb_serial_register p none)
          ++ (sds.take i).reverse.map Call.usb_serial_deregister
          ++ [Call.usb_deregister u]) := by
  rw [register_sub_fail env sds name id_table k u i halloc hbus hi hok hfail]
  have hlog : ((deregister_result (sds.take i).reverse
      (loop_result u (sds.take i) (sds.take (i + 1))
        (bus_registered u name 0 k))).usb_deregister u).log
      = k.log ++ ([Call.kzalloc (some u), Call.usb_register u none]
          ++ (sds.take (i + 1)).map (fun p => Call.usb_serial_register p none)
          ++ (sds.take i).reverse.map Call.usb_serial_deregister
          ++ [Call.usb_deregister u]) := by
    simp [Kernel.usb_deregister, deregister_result, loop_result,
      bus_registered_id_table]
    simp [bus_registered]
  refine ⟨rfl, hlog, ?_⟩
  simp only [Kernel.bus_log, hlog]
  simp only [List.filter_append, filter_usb_serial_register,
    filter_usb_serial_deregister]
  simp [Call.is_bus_call]

/-- Instance of C2: three serial drivers, the one at position 1 fails. -/
theorem C2_rollback_order_witness :
    (env_sub_fail.kzalloc = some 100 ∧ env_sub_fail.usb_register = 0 ∧
      1 < [1, 2, 3].length ∧ (∀ j, j < 1 → env_sub_fail.usb_serial_register j = 0) ∧
      env_sub_fail.usb_serial_register 1 ≠ 0) ∧
    ((usb_serial_register_drivers env_sub_fail [1, 2, 3] "ftdi" none Kernel.empty).1
      = env_sub_fail.usb_serial_register 1 ∧
    (usb_serial_register_drivers env_sub_fail [1, 2, 3] "ftdi" none Kernel.empty).2.log
      = Kernel.empty.log ++ ([Call.kzalloc (some 100), Call.usb_register 100 none]
          ++ ([1, 2, 3].take (1 + 1)).map (fun p => Call.usb_serial_register p none)
          ++ ([1, 2, 3].take 1).reverse.map Call.usb_serial_deregister
          ++ [Call.usb_deregister 100]) ∧
    (usb_serial_register_drivers env_sub_fail [1, 2, 3] "ftdi" none
        Kernel.empty).2.bus_log
      = Kernel.empty.bus_log ++ ([Call.usb_register 100 none]
          ++ ([1, 2, 3].take (1 + 1)).map (fun p => Call.usb_serial_register p none)
          ++ ([1, 2, 3].take 1).reverse.map Call.usb_serial_deregister
          ++ [Call.usb_deregister 100])) :=
  ⟨⟨rfl, rfl, by decide, by decide, by decide⟩,
   C2_rollback_order env_sub_fail [1, 2, 3] "ftdi" none Kernel.empty 100 1 rfl rfl
     (by decide) (by decide) (by decide)⟩


/-- C6 (successful bring-up): for a non-empty array on which allocation,
registration of the `struct usb_driver` and every serial-driver registration
succeed, the call returns 0; the calls it makes are, in order, `kzalloc`,
`usb_register`, `usb_serial_register` on the entries at positions
`0 .. n-1`, the assignment of `id_table` and `driver_attach` (on the bus
subsystem: the same without `kzalloc`); and on return the
`struct usb_driver` carries the `name` and the `id_table` passed in. -/
theorem C6_successful_bring_up (env : Env) (sds : List Ptr) (name : String)
    (id_table : IdTable) (k : Kernel) (u : Ptr)
    (_hne : sds ≠ [])
    (halloc : env.kzalloc = some u) (hbus : env.usb_register = 0)
    (hall : ∀ j, j < sds.length → env.usb_serial_register j = 0) :
    (usb_serial_register_drivers env sds name id_table k).1 = 0 ∧
    (usb_serial_register_drivers env sds name id_table k).2.log
      = k.log ++ ([Call.kzalloc (some u), Call.usb_register u none]
          ++ sds.map (fun p => Call.usb_serial_register p none)
          ++ [Call.set_id_table u id_table, Call.driver_attach u]) ∧
    (usb_serial_register_drivers env sds name id_table k).2.bus_log
      = k.bus_log ++ ([Call.usb_register u none]
          ++ sds.map (fun p => Call.usb_serial_register p none)
          ++ [Call.set_id_table u id_table, Call.driver_attach u]) ∧
    (usb_serial_register_drivers env sds name id_table k).2.heap u
      = some { name := some name, no_dynamic_id := 1, supports_autosuspend := 1,
               suspend := some Callback.usb_serial_suspend,
               resume := some Callback.usb_serial_resume,
               probe := some Callback.usb_serial_probe,
               disconnect := some Callback.usb_serial_disconnect,
               id_table := id_table } := by
  rw [register_all_ok env sds name id_table k u halloc hbus hall]
  refine ⟨rfl, register_all_ok_log u sds name id_table k, ?_, ?_⟩
  · simp only [Kernel.bus_log, register_all_ok_log]
    simp only [List.filter_append, filter_usb_serial_register]
    simp [Call.is_bus_call]
  · simp [Kernel.driver_attach, Kernel.set_id_table, Kernel.store, loop_result,
      bus_registered, initialised]

/-- Instance of C6: three serial drivers, every call succeeds. -/
theorem C6_successful_bring_up_witness :
    (([1, 2, 3] : List Ptr) ≠ [] ∧ env_ok.kzalloc = some 100 ∧ env_ok.usb_register = 0 ∧
      (∀ j, j < [1, 2, 3].length → env_ok.usb_serial_register j = 0)) ∧
    ((usb_serial_register_drivers env_ok [1, 2, 3] "ftdi" (some [⟨1027, 24577⟩])
        Kernel.empty).1 = 0 ∧
    (usb_serial_register_drivers env_ok [1, 2, 3] "ftdi" (some [⟨1027, 24577⟩])
        Kernel.empty).2.log
      = Kernel.empty.log ++ ([Call.kzalloc (some 100), Call.usb_register 100 none]
          ++ [1, 2, 3].map (fun p => Call.usb_serial_register p none)
          ++ [Call.set_id_table 100 (some [⟨1027, 24577⟩]), Call.driver_attach 100]) ∧
    (usb_serial_register_drivers env_ok [1, 2, 3] "ftdi" (some [⟨1027, 24577⟩])
        Kernel.empty).2.bus_log
      = Kernel.empty.bus_log ++ ([Call.usb_register 100 none]
          ++ [1, 2, 3].map (fun p => Call.usb_serial_register p none)
          ++ [Call.set_id_table 100 (some [⟨1027, 24577⟩]), Call.driver_attach 100]) ∧
    (usb_serial_register_drivers env_ok [1, 2, 3] "ftdi" (some [⟨1027, 24577⟩])
        Kernel.empty).2.heap 100
      = some { name := some "ftdi", no_dynamic_id := 1, supports_autosuspend := 1,
               suspend := some Callback.usb_serial_suspend,
               resume := some Callback.usb_serial_resume,
               probe := some Callback.usb_serial_probe,
               disconnect := some Callback.usb_serial_disconnect,
               id_table := some [⟨1027, 24577⟩] }) :=
  ⟨⟨by decide, rfl, rfl, by decide⟩,
   C6_successful_bring_up env_ok [1, 2, 3] "ftdi" (some [⟨1027, 24577⟩]) Kernel.empty 100
     (by decide) rfl rfl (by decide)⟩

/-- C8 (shared identity): after a bring-up in which every registration
succeeds, the `usb_driver` back-reference of every entry of the array is the
one `struct usb_driver` that the call allocated, and that driver is
registered with the USB core. -/
theorem C8_shared_usb_driver (env : Env) (sds : List Ptr) (name : String)
    (id_table : IdTable) (k : Kernel) (u : Ptr)
    (halloc : env.kzalloc = some u) (hbus : env.usb_register = 0)
    (hall : ∀ j, j < sds.length → env.usb_serial_register j = 0) :
    (usb_serial_register_drivers env sds name id_table k).1 = 0 ∧
    (∀ j (hj : j < sds.length),
      (usb_serial_register_drivers env sds name id_table k).2.sd_usb_driver
        (sds.get ⟨j, hj⟩) = some u) ∧
    u ∈ (usb_serial_register_drivers env sds name id_table k).2.usb_drivers ∧
    Call.kzalloc (some u) ∈ (usb_serial_register_drivers env sds name id_table k).2.log ∧
    Call.usb_register u none
      ∈ (usb_serial_register_drivers env sds name id_table k).2.log := by
  have hlog := register_all_ok_log u sds name id_table k
  rw [register_all_ok env sds name id_table k u halloc hbus hall]
  refine ⟨rfl, ?_, ?_, ?_, ?_⟩
  · intro j hj
    have hmem : sds.get ⟨j, hj⟩ ∈ sds := List.get_mem sds j hj
    simp [Kernel.driver_attach, Kernel.set_id_table, Kernel.store, loop_result, hmem]
  · simp [Kernel.driver_attach, Kernel.set_id_table, Kernel.store, loop_result,
      bus_registered]
  · rw [hlog]; simp
  · rw [hlog]; simp

/-- Instance of C8: three serial drivers, every call succeeds. -/
theorem C8_shared_usb_driver_witness :
    (env_ok.kzalloc = some 100 ∧ env_ok.usb_register = 0 ∧
      (∀ j, j < [1, 2, 3].length → env_ok.usb_serial_register j = 0)) ∧
    ((usb_serial_register_drivers env_ok [1, 2, 3] "ftdi" none Kernel.empty).1 = 0 ∧
    (∀ j (hj : j < [1, 2, 3].length),
      (usb_serial_register_drivers env_ok [1, 2, 3] "ftdi" none Kernel.empty).2.sd_usb_driver
        ([1, 2, 3].get ⟨j, hj⟩) = some 100) ∧
    100 ∈ (usb_serial_register_drivers env_ok [1, 2, 3] "ftdi" none
        Kernel.empty).2.usb_drivers ∧
    Call.kzalloc (some 100)
      ∈ (usb_serial_register_drivers env_ok [1, 2, 3] "ftdi" none Kernel.empty).2.log ∧
    Call.usb_register 100 none
      ∈ (usb_serial_register_drivers env_ok [1, 2, 3] "ftdi" none Kernel.empty).2.log) :=
  ⟨⟨rfl, rfl, by decide⟩,
   C8_shared_usb_driver env_ok [1, 2, 3] "ftdi" none Kernel.empty 100 rfl rfl (by decide)⟩

/-- The `id_table` of the allocated `struct usb_driver` on return from a
failed bring-up. -/
theorem id_table_of_failed (env : Env) (sds : List Ptr) (name : String)
    (id_table : IdTable) (k : Kernel) (u : Ptr) (halloc : env.kzalloc = some u)
    (hrc : (usb_serial_register_drivers env sds name id_table k).1 ≠ 0) :
    (usb_serial_register_drivers env sds name id_table k).2.id_table_of u = none := by
  by_cases hbus : env.usb_register = 0
  · rcases first_failure env.usb_serial_register sds.length with hall | ⟨i, hi, hok, hfail⟩
    · rw [register_all_ok env sds name id_table k u halloc hbus hall] at hrc
      exact absurd rfl hrc
    · rw [register_sub_fail env sds name id_table k u i halloc hbus hi hok hfail]
      simp [Kernel.usb_deregister, deregister_result, loop_result, bus_registered,
        Kernel.id_table_of, initialised]
  · rw [register_bus_fail env sds name id_table k u halloc hbus]
    exact bus_registered_id_table u name _ k

/-- C3 (deferred matching): in every run of `usb_serial_register_drivers`

* every `usb_register` and `usb_serial_register` call of the run sees the
  `struct usb_driver` without an `id_table`;
* if the run assigns an `id_table` at all, then every serial driver of the
  array registered successfully and the assignment comes after the last
  `usb_serial_register` call, followed only by `driver_attach`;
* if the run returns an error, it neither assigns the `id_table` nor calls
  `driver_attach`, and the `id_table` of the allocated `struct usb_driver`
  is still absent on return. -/
theorem C3_deferred_matching (env : Env) (sds : List Ptr) (name : String)
    (id_table : IdTable) (k : Kernel) :
    (∀ h t, Call.usb_register h t ∈ register_calls env sds name id_table k → t = none) ∧
    (∀ p t, Call.usb_serial_register p t ∈ register_calls env sds name id_table k →
      t = none) ∧
    (∀ h t, Call.set_id_table h t ∈ register_calls env sds name id_table k →
      (∀ j, j < sds.length → env.usb_serial_register j = 0) ∧
      register_calls env sds name id_table k
        = [Call.kzalloc (some h), Call.usb_register h none]
          ++ sds.map (fun p => Call.usb_serial_register p none)
          ++ [Call.set_id_table h t, Call.driver_attach h]) ∧
    ((usb_serial_register_drivers env sds name id_table k).1 ≠ 0 →
      (∀ h t, Call.set_id_table h t ∉ register_calls env sds name id_table k) ∧
      (∀ h, Call.driver_attach h ∉ register_calls env sds name id_table k) ∧
      (∀ u, env.kzalloc = some u →
        (usb_serial_register_drivers env sds name id_table k).2.id_table_of u = none)) := by
  have hid := id_table_of_failed env sds name id_table k
  rcases register_paths env sds name id_table k with
    ⟨_, hrc, hc⟩ | ⟨u, _, _, hrc, hc⟩ | ⟨u, _, _, hall, hrc, hc⟩ |
    ⟨u, i, _, _, _, _, _, hrc, hc⟩
  · rw [hc]
    refine ⟨by simp, by simp, by simp, ?_⟩
    intro h0
    exact ⟨by simp, by simp, fun u hu => hid u hu h0⟩
  · rw [hc]
    refine ⟨by simp, by simp, by simp, ?_⟩
    intro h0
    exact ⟨by simp, by simp, fun u hu => hid u hu h0⟩
  · rw [hc]
    refine ⟨?_, ?_, ?_, ?_⟩
    · intro h t ht
      simp at ht
      exact ht.2
    · intro p t ht
      simp at ht
      obtain ⟨_, _, _, h3⟩ := ht
      exact h3.symm
    · intro h t ht
      simp at ht
      obtain ⟨h1, h2⟩ := ht
      subst h1
      subst h2
      exact ⟨hall, rfl⟩
    · intro h0
      exact absurd hrc h0
  · rw [hc]
    refine ⟨?_, ?_, ?_, ?_⟩
    · intro h t ht
      simp [-List.map_take] at ht
      exact ht.2
    · intro p t ht
      simp [-List.map_take] at ht
      obtain ⟨_, _, _, h3⟩ := ht
      exact h3.symm
    · intro h t ht
      simp [-List.map_take] at ht
    · intro h0
      exact ⟨by simp [-List.map_take], by simp [-List.map_take],
        fun u hu => hid u hu h0⟩

/-- The registration loop looks at nothing in the environment but the
return codes of `usb_serial_register`. -/
theorem register_loop_congr (env env2 : Env) (u : Ptr)
    (h : env2.usb_serial_register = env.usb_serial_register) (l : List Ptr) :
    ∀ (sd : Nat) (k : Kernel),
      register_loop env2 u l sd k = register_loop env u l sd k := by
  induction l with
  | nil => intro sd k; rfl
  | cons p rest ih =>
    intro sd k
    simp only [register_loop, h, ih]

/-- The return code of `driver_attach` has no effect on the run. -/
theorem driver_attach_ignored (env : Env) (d : Int) (sds : List Ptr) (name : String)
    (id_table : IdTable) (k : Kernel) :
    usb_serial_register_drivers { env with driver_attach := d } sds name id_table k
      = usb_serial_register_drivers env sds name id_table k := by
  have hl := register_loop_congr env { env with driver_attach := d }
  simp only [usb_serial_register_drivers, hl]

/-- C9 (result of bring-up): for a non-empty array, whatever `driver_attach`
returns,

* the call returns 0 exactly when allocation, registration of the
  `struct usb_driver` and every serial-driver registration succeed;
* otherwise it returns the error of the first failing step: `-ENOMEM` when
  allocation fails, the code of `usb_register` when that fails, and the code
  of the first failing `usb_serial_register` otherwise;
* the whole run is the same as with any other return code of
  `driver_attach`, and when every registration succeeds none of
  `usb_serial_deregister`, `usb_deregister`, `kfree` is called. -/
theorem C9_bring_up_result (env : Env) (sds : List Ptr) (name : String)
    (id_table : IdTable) (k : Kernel) (_hne : sds ≠ []) :
    ((usb_serial_register_drivers env sds name id_table k).1 = 0 ↔
      (env.kzalloc ≠ none ∧ env.usb_register = 0 ∧
        ∀ j, j < sds.length → env.usb_serial_register j = 0)) ∧
    (env.kzalloc = none →
      (usb_serial_register_drivers env sds name id_table k).1 = -ENOMEM) ∧
    (env.kzalloc ≠ none → env.usb_register ≠ 0 →
      (usb_serial_register_drivers env sds name id_table k).1 = env.usb_register) ∧
    (∀ i, env.kzalloc ≠ none → env.usb_register = 0 → i < sds.length →
      (∀ j, j < i → env.usb_serial_register j = 0) →
      env.usb_serial_register i ≠ 0 →
      (usb_serial_register_drivers env sds name id_table k).1
        = env.usb_serial_register i) ∧
    (∀ d, usb_serial_register_drivers { env with driver_attach := d } sds name id_table k
      = usb_serial_register_drivers env sds name id_table k) ∧
    (env.kzalloc ≠ none → env.usb_register = 0 →
      (∀ j, j < sds.length → env.usb_serial_register j = 0) →
      (∀ p, Call.usb_serial_deregister p ∉ register_calls env sds name id_table k) ∧
      (∀ h, Call.usb_deregister h ∉ register_calls env sds name id_table k) ∧
      (∀ h, Call.kfree h ∉ register_calls env sds name id_table k)) := by
  refine ⟨?_, ?_, ?_, ?_, fun d => driver_attach_ignored env d sds name id_table k, ?_⟩
  · rcases register_paths env sds name id_table k with
      ⟨ha, hrc, _⟩ | ⟨u, ha, hb, hrc, _⟩ | ⟨u, ha, hb, hall, hrc, _⟩ |
      ⟨u, i, ha, hb, hi, hok, hfail, hrc, _⟩
    · rw [hrc]
      constructor
      · intro h; simp [ENOMEM] at h
      · intro h; exact absurd ha h.1
    · rw [hrc]
      constructor
      · intro h; exact absurd h hb
      · intro h; exact absurd h.2.1 hb
    · rw [hrc]
      constructor
      · intro _; exact ⟨by simp [ha], hb, hall⟩
      · intro _; rfl
    · rw [hrc]
      constructor
      · intro h; exact absurd h hfail
      · intro h; exact absurd (h.2.2 i hi) hfail
  · intro ha
    rw [register_alloc_fail env sds name id_table k ha]
  · intro ha hb
    obtain ⟨u, hu⟩ := Option.ne_none_iff_exists'.mp ha
    rw [register_bus_fail env sds name id_table k u hu hb]
  · intro i ha hb hi hok hfail
    obtain ⟨u, hu⟩ := Option.ne_none_iff_exists'.mp ha
    rw [register_sub_fail env sds name id_table k u i hu hb hi hok hfail]
  · intro ha hb hall
    obtain ⟨u, hu⟩ := Option.ne_none_iff_exists'.mp ha
    have hc : register_calls env sds name id_table k
        = [Call.kzalloc (some u), Call.usb_register u none]
          ++ sds.map (fun p => Call.usb_serial_register p none)
          ++ [Call.set_id_table u id_table, Call.driver_attach u] := by
      rw [register_calls, register_all_ok env sds name id_table k u hu hb hall,
        register_all_ok_log]
      exact List.drop_left _ _
    rw [hc]
    exact ⟨by simp, by simp, by simp⟩

/-- Instance of C9: three serial drivers, only `driver_attach` fails. -/
theorem C9_bring_up_result_witness :
    (([1, 2, 3] : List Ptr) ≠ [] ∧ env_attach_fail.driver_attach ≠ 0) ∧
    (usb_serial_register_drivers env_attach_fail [1, 2, 3] "ftdi" none Kernel.empty).1 = 0 ∧
    (∀ p, Call.usb_serial_deregister p
        ∉ register_calls env_attach_fail [1, 2, 3] "ftdi" none Kernel.empty) ∧
    (∀ h, Call.usb_deregister h
        ∉ register_calls env_attach_fail [1, 2, 3] "ftdi" none Kernel.empty) ∧
    (∀ h, Call.kfree h
        ∉ register_calls env_attach_fail [1, 2, 3] "ftdi" none Kernel.empty) :=
  have h := C9_bring_up_result env_attach_fail [1, 2, 3] "ftdi" none Kernel.empty
    (by decide)
  ⟨⟨by decide, by decide⟩,
   h.1.mpr ⟨by decide, rfl, by decide⟩,
   h.2.2.2.2.2 (by decide) rfl (by decide)⟩

/-! ## Teardown -/

/-- Teardown of a non-empty array whose first entry refers to the
`struct usb_driver` at `u`. -/
theorem deregister_drivers_eq (first : Ptr) (rest : List Ptr) (k : Kernel) (u : Ptr)
    (h : k.sd_usb_driver first = some u) :
    usb_serial_deregister_drivers (first :: rest) k
      = some (((deregister_result (first :: rest) k).usb_deregister u).kfree u) := by
  simp only [usb_serial_deregister_drivers, deregister_loop_eq, h]

/-- C7 (teardown undoes bring-up): after a bring-up of a non-empty array in
which every registration succeeds, `usb_serial_deregister_drivers` on the
same array runs to completion; it reads the `struct usb_driver` of the
bring-up from the first entry, and the calls it makes are, in order,
`usb_serial_deregister` on the entries at positions `0 .. n-1`,
`usb_deregister` and `kfree` of that `struct usb_driver`.  Afterwards the
registrations are those from before the bring-up and the
`struct usb_driver` is no longer allocated. -/
theorem C7_teardown (env : Env) (sds : List Ptr) (name : String)
    (id_table : IdTable) (k : Kernel) (u : Ptr)
    (hne : sds ≠ [])
    (halloc : env.kzalloc = some u) (hbus : env.usb_register = 0)
    (hall : ∀ j, j < sds.length → env.usb_serial_register j = 0) :
    (usb_serial_register_drivers env sds name id_table k).1 = 0 ∧
    (usb_serial_register_drivers env sds name id_table k).2.sd_usb_driver (sds.head hne)
      = some u ∧
    ∃ k2, usb_serial_deregister_drivers sds
        (usb_serial_register_drivers env sds name id_table k).2 = some k2 ∧
      k2.log = (usb_serial_register_drivers env sds name id_table k).2.log
        ++ (sds.map Call.usb_serial_deregister
            ++ [Call.usb_deregister u, Call.kfree u]) ∧
      k2.serial_drivers = k.serial_drivers ∧
      k2.usb_drivers = k.usb_drivers ∧
      k2.heap u = none := by
  rw [register_all_ok env sds name id_table k u halloc hbus hall]
  cases sds with
  | nil => exact absurd rfl hne
  | cons first rest =>
    have hdiff : ((first :: rest).reverse ++ k.serial_drivers).diff (first :: rest)
        = k.serial_drivers :=
      diff_append_of_perm _ _ _ (List.reverse_perm _)
    have hback : (((loop_result u (first :: rest) (first :: rest)
        (bus_registered u name 0 k)).set_id_table u id_table).driver_attach
          u).sd_usb_driver first = some u := by
      simp [Kernel.driver_attach, Kernel.set_id_table, Kernel.store, loop_result]
    refine ⟨rfl, hback, _, deregister_drivers_eq first rest _ u hback, ?_, ?_, ?_, ?_⟩
    · simp [Kernel.kfree, Kernel.usb_deregister, deregister_result]
    · have h := hdiff
      simp only [List.reverse_cons] at h
      simpa [Kernel.kfree, Kernel.usb_deregister, deregister_result,
        Kernel.driver_attach, Kernel.set_id_table, Kernel.store, loop_result,
        bus_registered] using h
    · simp [Kernel.kfree, Kernel.usb_deregister, deregister_result,
        Kernel.driver_attach, Kernel.set_id_table, Kernel.store, loop_result,
        bus_registered]
    · simp [Kernel.kfree]

/-- Instance of C7: bring-up and teardown of three serial drivers. -/
theorem C7_teardown_witness :
    (env_ok.kzalloc = some 100 ∧ env_ok.usb_register = 0 ∧
      (∀ j, j < [1, 2, 3].length → env_ok.usb_serial_register j = 0)) ∧
    ((usb_serial_register_drivers env_ok [1, 2, 3] "ftdi" none Kernel.empty).1 = 0 ∧
    (usb_serial_register_drivers env_ok [1, 2, 3] "ftdi" none Kernel.empty).2.sd_usb_driver
        (([1, 2, 3] : List Ptr).head (by decide)) = some 100 ∧
    ∃ k2, usb_serial_deregister_drivers [1, 2, 3]
        (usb_serial_register_drivers env_ok [1, 2, 3] "ftdi" none Kernel.empty).2
          = some k2 ∧
      k2.log = (usb_serial_register_drivers env_ok [1, 2, 3] "ftdi" none Kernel.empty).2.log
        ++ ([1, 2, 3].map Call.usb_serial_deregister
            ++ [Call.usb_deregister 100, Call.kfree 100]) ∧
      k2.serial_drivers = Kernel.empty.serial_drivers ∧
      k2.usb_drivers = Kernel.empty.usb_drivers ∧
      k2.heap 100 = none) :=
  ⟨⟨rfl, rfl, by decide⟩,
   C7_teardown env_ok [1, 2, 3] "ftdi" none Kernel.empty 100 (by decide) rfl rfl
     (by decide)⟩

/-! ## The empty array -/

/-- C4, as stated, fails: on the empty array, with every call succeeding,
`usb_serial_register_drivers` returns 0 and has called `kzalloc`,
`usb_register`, assigned the `id_table` and called `driver_attach`; it does
not return an error with no call made. -/
theorem C4_empty_array_not_rejected :
    ((usb_serial_register_drivers env_ok [] "ftdi" none Kernel.empty).1 = 0 ∧
     (usb_serial_register_drivers env_ok [] "ftdi" none Kernel.empty).2.log
       = [Call.kzalloc (some 100), Call.usb_register 100 none,
          Call.set_id_table 100 none, Call.driver_attach 100] ∧
     (usb_serial_register_drivers env_ok [] "ftdi" none Kernel.empty).2.bus_log
       = [Call.usb_register 100 none, Call.set_id_table 100 none,
          Call.driver_attach 100]) ∧
    ¬ ((usb_serial_register_drivers env_ok [] "ftdi" none Kernel.empty).1 ≠ 0 ∧
       (usb_serial_register_drivers env_ok [] "ftdi" none Kernel.empty).2.log = []) := by
  decide

/-- C4, amended: the empty array is not rejected.  When allocation and
registration of the `struct usb_driver` succeed, the call on the empty array
returns 0 after exactly `kzalloc`, `usb_register`, the assignment of the
`id_table` and `driver_attach`; no serial driver is registered or
deregistered, and the `struct usb_driver` stays registered. -/
theorem C4_empty_array (env : Env) (name : String) (id_table : IdTable) (k : Kernel)
    (u : Ptr) (halloc : env.kzalloc = some u) (hbus : env.usb_register = 0) :
    (usb_serial_register_drivers env [] name id_table k).1 = 0 ∧
    (usb_serial_register_drivers env [] name id_table k).2.log
      = k.log ++ [Call.kzalloc (some u), Call.usb_register u none,
          Call.set_id_table u id_table, Call.driver_attach u] ∧
    (usb_serial_register_drivers env [] name id_table k).2.bus_log
      = k.bus_log ++ [Call.usb_register u none, Call.set_id_table u id_table,
          Call.driver_attach u] ∧
    (usb_serial_register_drivers env [] name id_table k).2.serial_drivers
      = k.serial_drivers ∧
    (usb_serial_register_drivers env [] name id_table k).2.usb_drivers
      = u :: k.usb_drivers := by
  have hall : ∀ j, j < ([] : List Ptr).length → env.usb_serial_register j = 0 := by
    intro j hj; simp at hj
  have hlog := register_all_ok_log u [] name id_table k
  rw [register_all_ok env [] name id_table k u halloc hbus hall]
  refine ⟨rfl, by simpa using hlog, ?_, ?_, ?_⟩
  · simp only [Kernel.bus_log, hlog]
    simp [Call.is_bus_call]
  · simp [Kernel.driver_attach, Kernel.set_id_table, Kernel.store, loop_result,
      bus_registered]
  · simp [Kernel.driver_attach, Kernel.set_id_table, Kernel.store, loop_result,
      bus_registered]

/-- Instance of amended C4. -/
theorem C4_empty_array_witness :
    (env_ok.kzalloc = some 100 ∧ env_ok.usb_register = 0) ∧
    ((usb_serial_register_drivers env_ok [] "ftdi" none Kernel.empty).1 = 0 ∧
    (usb_serial_register_drivers env_ok [] "ftdi" none Kernel.empty).2.log
      = Kernel.empty.log ++ [Call.kzalloc (some 100), Call.usb_register 100 none,
          Call.set_id_table 100 none, Call.driver_attach 100] ∧
    (usb_serial_register_drivers env_ok [] "ftdi" none Kernel.empty).2.bus_log
      = Kernel.empty.bus_log ++ [Call.usb_register 100 none, Call.set_id_table 100 none,
          Call.driver_attach 100] ∧
    (usb_serial_register_drivers env_ok [] "ftdi" none Kernel.empty).2.serial_drivers
      = Kernel.empty.serial_drivers ∧
    (usb_serial_register_drivers env_ok [] "ftdi" none Kernel.empty).2.usb_drivers
      = 100 :: Kernel.empty.usb_drivers) :=
  ⟨⟨rfl, rfl⟩, C4_empty_array env_ok "ftdi" none Kernel.empty 100 rfl rfl⟩

/-! ## Release of the allocation on failure -/

/-- C5 on the code: in a run where `usb_register` fails, and in a run where
the serial driver at position 1 fails, `usb_serial_register_drivers` returns
the error while the `struct usb_driver` it allocated is still allocated and
no `kfree` has been called; `usb_serial_deregister_drivers`, in contrast,
ends with `kfree`. -/
theorem C5_usb_driver_not_freed :
    ((usb_serial_register_drivers env_bus_fail [1, 2, 3] "ftdi" none Kernel.empty).1 = -16 ∧
     (usb_serial_register_drivers env_bus_fail [1, 2, 3] "ftdi" none Kernel.empty).2.heap 100
       ≠ none ∧
     (usb_serial_register_drivers env_bus_fail [1, 2, 3] "ftdi" none Kernel.empty).2.log
       = [Call.kzalloc (some 100), Call.usb_register 100 none]) ∧
    ((usb_serial_register_drivers env_sub_fail [1, 2, 3] "ftdi" none Kernel.empty).1 = -22 ∧
     (usb_serial_register_drivers env_sub_fail [1, 2, 3] "ftdi" none Kernel.empty).2.heap 100
       ≠ none ∧
     (usb_serial_register_drivers env_sub_fail [1, 2, 3] "ftdi" none Kernel.empty).2.log
       = [Call.kzalloc (some 100), Call.usb_register 100 none,
          Call.usb_serial_register 1 none, Call.usb_serial_register 2 none,
          Call.usb_serial_deregister 1, Call.usb_deregister 100]) ∧
    ((usb_serial_deregister_drivers [1, 2, 3]
        (usb_serial_register_drivers env_ok [1, 2, 3] "ftdi" none Kernel.empty).2).map
          (fun k2 => (k2.heap 100, k2.log.getLast?))
       = some (none, some (Call.kfree 100))) := by
  decide

/-- On every failing path that got past the allocation, the
`struct usb_driver` is still allocated on return and `kfree` was not
called. -/
theorem failed_bring_up_keeps_allocation (env : Env) (sds : List Ptr) (name : String)
    (id_table : IdTable) (k : Kernel) (u : Ptr) (halloc : env.kzalloc = some u)
    (hrc : (usb_serial_register_drivers env sds name id_table k).1 ≠ 0) :
    (usb_serial_register_drivers env sds name id_table k).2.heap u
      = some (initialised name) ∧
    ∀ p, Call.kfree p ∉ register_calls env sds name id_table k := by
  rcases register_paths env sds name id_table k with
    ⟨ha, _, _⟩ | ⟨u2, ha, hb, _, hc⟩ | ⟨u2, _, _, _, h0, _⟩ |
    ⟨u2, i, ha, hb, hi, hok, hfail, _, hc⟩
  · rw [halloc] at ha; simp at ha
  · rw [hc]
    refine ⟨?_, by simp⟩
    rw [register_bus_fail env sds name id_table k u halloc hb]
    simp [bus_registered]
  · exact absurd h0 hrc
  · rw [hc]
    refine ⟨?_, by simp [-List.map_take]⟩
    rw [register_sub_fail env sds name id_table k u i halloc hb hi hok hfail]
    simp [Kernel.usb_deregister, deregister_result, loop_result, bus_registered]

/-! ## Back-references after a failed bring-up -/

/-- C10, as stated, fails when the array names one descriptor twice: for
the array `[1, 2, 1]` with the registration at position 1 failing, the
descriptor at position 2 (the descriptor at address 1, also at position 0)
had no back-reference before the call and refers to the
`struct usb_driver` at 100 after it. -/
theorem C10_later_entry_changed :
    (usb_serial_register_drivers env_sub_fail [1, 2, 1] "ftdi" none Kernel.empty).1 = -22 ∧
    Kernel.empty.sd_usb_driver (([1, 2, 1] : List Ptr).get ⟨2, by decide⟩) = none ∧
    (usb_serial_register_drivers env_sub_fail [1, 2, 1] "ftdi" none
        Kernel.empty).2.sd_usb_driver (([1, 2, 1] : List Ptr).get ⟨2, by decide⟩)
      = some 100 ∧
    ¬ (∀ j (hj : j < ([1, 2, 1] : List Ptr).length), 1 < j →
        (usb_serial_register_drivers env_sub_fail [1, 2, 1] "ftdi" none
          Kernel.empty).2.sd_usb_driver (([1, 2, 1] : List Ptr).get ⟨j, hj⟩)
        = Kernel.empty.sd_usb_driver (([1, 2, 1] : List Ptr).get ⟨j, hj⟩)) := by
  refine ⟨by decide, by decide, by decide, ?_⟩
  intro h
  have h2 := h 2 (by decide) (by decide)
  revert h2
  decide

/-- C10, amended: with the allocation succeeding,

* if `usb_register` fails, no back-reference is written;
* if the serial driver at position `i < n` is the first to fail, the
  descriptors at positions `0 .. i` are left referring to the
  `struct usb_driver` of the call (which has been deregistered), and every
  descriptor that does not occur at one of the positions `0 .. i` keeps the
  back-reference it had before the call; this covers the descriptors at
  positions `i+1 .. n-1` that do not also occur at a position `0 .. i`. -/
theorem C10_back_references (env : Env) (sds : List Ptr) (name : String)
    (id_table : IdTable) (k : Kernel) (u : Ptr) (halloc : env.kzalloc = some u) :
    (env.usb_register ≠ 0 →
      (usb_serial_register_drivers env sds name id_table k).2.sd_usb_driver
        = k.sd_usb_driver) ∧
    (∀ i, env.usb_register = 0 → i < sds.length →
      (∀ j, j < i → env.usb_serial_register j = 0) →
      env.usb_serial_register i ≠ 0 →
      (∀ j (hj : j < sds.length), j ≤ i →
        (usb_serial_register_drivers env sds name id_table k).2.sd_usb_driver
          (sds.get ⟨j, hj⟩) = some u) ∧
      (usb_serial_register_drivers env sds name id_table k).2.usb_drivers
        = k.usb_drivers ∧
      (∀ p, p ∉ sds.take (i + 1) →
        (usb_serial_register_drivers env sds name id_table k).2.sd_usb_driver p
          = k.sd_usb_driver p) ∧
      (∀ j (hj : j < sds.length), i < j → sds.get ⟨j, hj⟩ ∉ sds.take (i + 1) →
        (usb_serial_register_drivers env sds name id_table k).2.sd_usb_driver
          (sds.get ⟨j, hj⟩) = k.sd_usb_driver (sds.get ⟨j, hj⟩))) := by
  constructor
  · intro hbus
    rw [register_bus_fail env sds name id_table k u halloc hbus]
    simp [bus_registered]
  · intro i hbus hi hok hfail
    rw [register_sub_fail env sds name id_table k u i halloc hbus hi hok hfail]
    have hframe : ∀ p, p ∉ sds.take (i + 1) →
        ((deregister_result (sds.take i).reverse
          (loop_result u (sds.take i) (sds.take (i + 1))
            (bus_registered u name 0 k))).usb_deregister u).sd_usb_driver p
          = k.sd_usb_driver p := by
      intro p hp
      simp [Kernel.usb_deregister, deregister_result, loop_result, bus_registered, hp]
    refine ⟨?_, ?_, hframe, fun j hj _ hp => hframe _ hp⟩
    · intro j hj hji
      have hmem : sds[j] ∈ sds.take (i + 1) := by
        rw [List.mem_take_iff_getElem]
        exact ⟨j, by simp; omega, rfl⟩
      simp [Kernel.usb_deregister, deregister_result, loop_result, bus_registered, hmem]
    · simp [Kernel.usb_deregister, deregister_result, loop_result, bus_registered]

/-- Instance of amended C10: three distinct serial drivers with the one at
position 1 failing, and a run in which `usb_register` fails. -/
theorem C10_back_references_witness :
    (env_sub_fail.kzalloc = some 100 ∧ env_sub_fail.usb_register = 0 ∧
      1 < ([1, 2, 3] : List Ptr).length ∧
      (∀ j, j < 1 → env_sub_fail.usb_serial_register j = 0) ∧
      env_sub_fail.usb_serial_register 1 ≠ 0 ∧
      ([1, 2, 3] : List Ptr).get ⟨2, by decide⟩ ∉ ([1, 2, 3] : List Ptr).take (1 + 1)) ∧
    ((usb_serial_register_drivers env_sub_fail [1, 2, 3] "ftdi" none
        Kernel.empty).2.sd_usb_driver (([1, 2, 3] : List Ptr).get ⟨0, by decide⟩)
      = some 100 ∧
     (usb_serial_register_drivers env_sub_fail [1, 2, 3] "ftdi" none
        Kernel.empty).2.sd_usb_driver (([1, 2, 3] : List Ptr).get ⟨1, by decide⟩)
      = some 100 ∧
     (usb_serial_register_drivers env_sub_fail [1, 2, 3] "ftdi" none
        Kernel.empty).2.sd_usb_driver (([1, 2, 3] : List Ptr).get ⟨2, by decide⟩)
      = Kernel.empty.sd_usb_driver (([1, 2, 3] : List Ptr).get ⟨2, by decide⟩)) ∧
    (env_bus_fail.kzalloc = some 100 ∧ env_bus_fail.usb_register ≠ 0) ∧
    (usb_serial_register_drivers env_bus_fail [1, 2, 3] "ftdi" none
        Kernel.empty).2.sd_usb_driver = Kernel.empty.sd_usb_driver :=
  have h := (C10_back_references env_sub_fail [1, 2, 3] "ftdi" none Kernel.empty 100
    rfl).2 1 rfl (by decide) (by decide) (by decide)
  ⟨⟨rfl, rfl, by decide, by decide, by decide, by decide⟩,
   ⟨h.1 0 (by decide) (by decide), h.1 1 (by decide) (by decide),
    h.2.2.2 2 (by decide) (by decide) (by decide)⟩,
   ⟨rfl, by decide⟩,
   (C10_back_references env_bus_fail [1, 2, 3] "ftdi" none Kernel.empty 100 rfl).1
     (by decide)⟩

end UsbSerial
